import Mathlib

/-!
Shallow embedding of `forecast/print.go` from the `weather` repository.

Go machine floats are modelled as exact rationals; all the concrete angle
inputs appearing below are far from floating-point rounding boundaries, so
the float program and the rational model agree on them.  Stateful printing
to standard output is modelled by the list of strings that each function
writes, in order; a Go runtime panic (out-of-range slice or list index) is
modelled by the value `none` of an `Option` result.
-/

set_option autoImplicit false

namespace WeatherPrint

/-- UnitMeasures are the location specific terms for weather data
(`print.go`, lines 15-22). -/
structure UnitMeasures where
  Degrees : String
  Speed : String
  Length : String
  Precipitation : String
  LongDate : String
  Hour : String
deriving DecidableEq

/-- UnitFormats describes each regions UnitMeasures (`print.go`, lines
26-68).  The Go map lookup `UnitFormats[units]` yields the zero value on a
missing key, so the map is embedded as a total function returning the
all-empty record for unknown keys. -/
def UnitFormats (units : String) : UnitMeasures :=
  if units = "us" then
    ⟨"°F", "mph", "miles", "in/hr", "January 2 at 3:04pm MST", "3:04pm MST"⟩
  else if units = "si" then
    ⟨"°C", "m/s", "kilometers", "mm/h", "2006-01-02 15:04:05 EET", "15:04 EET"⟩
  else if units = "ca" then
    ⟨"°C", "km/h", "kilometers", "mm/h", "January 2 at 3:04pm MST", "3:04pm MST"⟩
  else if units = "uk" then
    ⟨"°C", "mph", "kilometers", "mm/h", "January 2 at 15:04 MST", "15:04 MST"⟩
  else if units = "uk2" then
    ⟨"°C", "mph", "miles", "mm/h", "January 2 at 15:04 MST", "15:04 MST"⟩
  else
    ⟨"", "", "", "", "", ""⟩

/-- Directions contain all the combinations of N,S,E,W (`print.go`,
lines 70-72). -/
def Directions : List String :=
  ["N", "NNE", "NE", "ENE", "E", "ESE", "SE", "SSE",
   "S", "SSW", "SW", "WSW", "W", "WNW", "NW", "NNW"]

/-- Go truncation toward zero: the conversion `int(x)` for a float `x`,
modelled on rationals. -/
def truncQ (q : ℚ) : ℤ :=
  if 0 ≤ q then ⌊q⌋ else ⌈q⌉

/-- Go `math.Mod(x, y)`: the floating-point remainder whose sign agrees
with `x`, that is `x - trunc(x/y)*y`, modelled on rationals. -/
def gomod (x y : ℚ) : ℚ :=
  x - (truncQ (x / y) : ℚ) * y

/-- The index computed by `getBearingDetails` (`print.go`, line 146):
`int(math.Mod((degrees+11.25)/22.5, 16))`. -/
def bearingIndex (degrees : ℚ) : ℤ :=
  truncQ (gomod ((degrees + 11.25) / 22.5) 16)

/-- `getBearingDetails` (`print.go`, lines 145-148).  The Go code indexes
`Directions[index]` directly; an index outside `[0, 16)` panics, which is
modelled by `none`. -/
def getBearingDetails (degrees : ℚ) : Option String :=
  if 0 ≤ bearingIndex degrees then Directions[(bearingIndex degrees).toNat]? else none

/-- Modelled from the spec: the terminal color-escape rendering primitive
(`colorstring.Color`, an external collaborator not in this repository) is
"treated as a function from a tagged string to a display string"; this core
"only ever constructs tag+text combinations and passes them through", so the
primitive is modelled as the pass-through (identity) function. -/
def colorstringColor (s : String) : String := s

namespace icons

/-- Modelled from the spec: the icon glyph table is "an opaque symbol set
keyed by name" (external collaborator); each glyph is a distinct opaque
marker string. -/
def Clear : String := "<glyph:Clear>"

def Clearday : String := "<glyph:Clearday>"

def Clearnight : String := "<glyph:Clearnight>"

def Clouds : String := "<glyph:Clouds>"

def Cloudy : String := "<glyph:Cloudy>"

def Cloudsnight : String := "<glyph:Cloudsnight>"

def Fog : String := "<glyph:Fog>"

def Haze : String := "<glyph:Haze>"

def Hazenight : String := "<glyph:Hazenight>"

def Partlycloudyday : String := "<glyph:Partlycloudyday>"

def Partlycloudynight : String := "<glyph:Partlycloudynight>"

def Rain : String := "<glyph:Rain>"

def Sleet : String := "<glyph:Sleet>"

def Snow : String := "<glyph:Snow>"

def Thunderstorm : String := "<glyph:Thunderstorm>"

def Tornado : String := "<glyph:Tornado>"

def Wind : String := "<glyph:Wind>"

end icons

/-- The icon-name sterilization of `getIcon` (`print.go`, line 93):
`strings.Replace(strings.Replace(iconStr, "-", "", -1), "_", "", -1)`.
Replacing every occurrence of a single-character pattern by the empty
string removes exactly the characters equal to that pattern, so each
`strings.Replace` is embedded as a character filter. -/
def steralize (s : String) : String :=
  ⟨(s.data.filter (fun c => c != '-')).filter (fun c => c != '_')⟩

/-- The switch of `getIcon` (`print.go`, lines 91-140): from the sterilized
icon string to the `(color, icon)` pair, starting from the defaults
`color = "blue"`, `icon = ""` and overriding them per matched case. -/
def iconTable (s : String) : String × String :=
  if s = "clear" then ("blue", icons.Clear)
  else if s = "clearday" then ("yellow", icons.Clearday)
  else if s = "clearnight" then ("light_yellow", icons.Clearnight)
  else if s = "clouds" then ("blue", icons.Clouds)
  else if s = "cloudy" then ("blue", icons.Cloudy)
  else if s = "cloudsnight" then ("light_yellow", icons.Cloudsnight)
  else if s = "fog" then ("blue", icons.Fog)
  else if s = "haze" then ("blue", icons.Haze)
  else if s = "hazenight" then ("light_yellow", icons.Hazenight)
  else if s = "partlycloudyday" then ("yellow", icons.Partlycloudyday)
  else if s = "partlycloudynight" then ("light_yellow", icons.Partlycloudynight)
  else if s = "rain" then ("blue", icons.Rain)
  else if s = "sleet" then ("blue", icons.Sleet)
  else if s = "snow" then ("white", icons.Snow)
  else if s = "thunderstorm" then ("black", icons.Thunderstorm)
  else if s = "tornado" then ("black", icons.Tornado)
  else if s = "wind" then ("black", icons.Wind)
  else ("blue", "")

/-- `getIcon` (`print.go`, lines 90-143): returns
`colorstring.Color("[" + color + "]" + icon), nil`.  The second component
is the returned Go `error` (`none` = `nil`). -/
def getIcon (iconStr : String) : String × Option String :=
  let p := iconTable (steralize iconStr)
  (colorstringColor ("[" ++ p.1 ++ "]" ++ p.2), none)

/-- Modelled from the spec: the Go standard time formatter used by
`epochFormat` (`print.go`, lines 75-78) is external; the time formatters
are "pure functions turning an epoch timestamp into strings, parameterized
by the active UnitProfile", modelled as an opaque injective encoding of the
timestamp and the pattern. -/
def epochFormat (seconds : ℤ) (unitsFormat : UnitMeasures) : String :=
  "@" ++ toString seconds ++ "|" ++ unitsFormat.LongDate

/-- Modelled from the spec: as `epochFormat`, for `epochFormatDate`
(`print.go`, lines 80-83), whose pattern is the fixed `"January 2 (Monday)"`. -/
def epochFormatDate (seconds : ℤ) : String :=
  "@" ++ toString seconds ++ "|January 2 (Monday)"

/-- Modelled from the spec: as `epochFormat`, for `epochFormatTime`
(`print.go`, lines 85-88), which uses the short `Hour` pattern. -/
def epochFormatTime (seconds : ℤ) (unitsFormat : UnitMeasures) : String :=
  "@" ++ toString seconds ++ "|" ++ unitsFormat.Hour

/-- Modelled from the spec: the `Weather` record (declared outside
`print.go`) carrying the optional numeric metrics, temperatures, summary
text, condition-icon key and epoch timestamps used by the printers.
Go float64 fields are modelled as rationals. -/
structure Weather where
  Time : ℤ
  Summary : String
  Icon : String
  Temperature : ℚ
  ApparentTemperature : ℚ
  Humidity : ℚ
  PrecipIntensity : ℚ
  PrecipProbability : ℚ
  PrecipType : String
  NearestStormDistance : ℚ
  NearestStormBearing : ℚ
  WindSpeed : ℚ
  WindBearing : ℚ
  CloudCover : ℚ
  Visibility : ℚ
  Pressure : ℚ
  TemperatureMax : ℚ
  TemperatureMin : ℚ
  ApparentTemperatureMax : ℚ
  ApparentTemperatureMin : ℚ
  TemperatureMaxTime : ℤ
  TemperatureMinTime : ℤ
deriving DecidableEq

/-- Modelled from the spec: an alert record with title, description,
creation epoch, expiry epoch. -/
structure Alert where
  Title : String
  Description : String
  Time : ℤ
  Expires : ℤ
deriving DecidableEq

/-- Modelled from the spec: the flags carry the forecast's declared region
code (`forecast.Flags.Units`). -/
structure Flags where
  Units : String
deriving DecidableEq

/-- Modelled from the spec: the daily part of a forecast is an ordered
sequence of daily Weather samples (index 0 is "today"). -/
structure Daily where
  Data : List Weather
deriving DecidableEq

/-- Modelled from the spec: the forecast aggregate of one current sample,
the daily sequence, the region code and zero or more alerts. -/
structure Forecast where
  Currently : Weather
  Daily : Daily
  Flags : Flags
  Alerts : List Alert
deriving DecidableEq

/-- Modelled from the spec: the external geocoding record (city, region). -/
structure Geocode where
  City : String
  Region : String
deriving DecidableEq

/-- `printCommon` (`print.go`, lines 150-196): the list of writes emitted
for one weather sample.  `fmtv` stands for Go's `%v` rendering of a float
value.  The two bearing lookups can panic (out-of-range list index), which
the `Option` result propagates as `none`; the function's Go `error` result
is always `nil` and is not modelled separately. -/
def printCommon (fmtv : ℚ → String) (weather : Weather) (unitsFormat : UnitMeasures) :
    Option (List String) :=
  let humidityLines :=
    if 0 < weather.Humidity then
      let humidity := colorstringColor ("[white]" ++ fmtv (weather.Humidity * 100) ++ "%")
      if 0.20 < weather.Humidity then
        ["  Ick! The humidity is " ++ humidity ++ "\n"]
      else
        ["  The humidity is " ++ humidity ++ "\n"]
    else []
  let precIntensityLines :=
    if 0 < weather.PrecipIntensity then
      let precInt := colorstringColor
        ("[white]" ++ fmtv weather.PrecipIntensity ++ " " ++ unitsFormat.Precipitation)
      ["  The precipitation intensity of "
        ++ colorstringColor ("[white]" ++ weather.PrecipType) ++ " is " ++ precInt ++ "\n"]
    else []
  let precProbLines :=
    if 0 < weather.PrecipProbability then
      let prec := colorstringColor
        ("[white]" ++ fmtv (weather.PrecipProbability * 100) ++ "%")
      ["  The precipitation probability is " ++ prec ++ "\n"]
    else []
  let stormLinesO :=
    if 0 < weather.NearestStormDistance then
      (getBearingDetails weather.NearestStormBearing).map (fun b =>
        let dist := colorstringColor
          ("[white]" ++ fmtv weather.NearestStormDistance ++ " " ++ unitsFormat.Length ++ " " ++ b)
        ["  The nearest storm is " ++ dist ++ " away\n"])
    else some []
  let windLinesO :=
    if 0 < weather.WindSpeed then
      (getBearingDetails weather.WindBearing).map (fun b =>
        let wind := colorstringColor
          ("[white]" ++ fmtv weather.WindSpeed ++ " " ++ unitsFormat.Speed ++ " " ++ b)
        ["  The wind speed is " ++ wind ++ "\n"])
    else some []
  let cloudLines :=
    if 0 < weather.CloudCover then
      let cloudCover := colorstringColor ("[white]" ++ fmtv (weather.CloudCover * 100) ++ "%")
      ["  The cloud coverage is " ++ cloudCover ++ "\n"]
    else []
  let visibilityLines :=
    if weather.Visibility < 10 then
      let visibility := colorstringColor
        ("[white]" ++ fmtv weather.Visibility ++ " " ++ unitsFormat.Length)
      ["  The visibility is " ++ visibility ++ "\n"]
    else []
  let pressureLines :=
    if 0 < weather.Pressure then
      let pressure := colorstringColor ("[white]" ++ fmtv weather.Pressure ++ " mbar")
      ["  The pressure is " ++ pressure ++ "\n\n"]
    else []
  match stormLinesO, windLinesO with
  | some stormLines, some windLines =>
      some (humidityLines ++ precIntensityLines ++ precProbLines ++ stormLines
        ++ windLines ++ cloudLines ++ visibilityLines ++ pressureLines)
  | _, _ => none

/-- The temperature write of `PrintCurrent` (`print.go`, lines 214-220):
the feels-like clause appears exactly when the two fully formatted,
color-annotated strings differ. -/
def tempLine (fmtv : ℚ → String) (currently : Weather) (unitsFormat : UnitMeasures) : String :=
  let temp := colorstringColor
    ("[magenta]" ++ fmtv currently.Temperature ++ unitsFormat.Degrees)
  let feelslike := colorstringColor
    ("[magenta]" ++ fmtv currently.ApparentTemperature ++ unitsFormat.Degrees)
  if temp = feelslike then
    "The temperature is " ++ temp ++ "\n\n"
  else
    "The temperature is " ++ temp ++ ", but it feels like " ++ feelslike ++ "\n\n"

/-- The writes of one iteration of the alert loop of `PrintCurrent`
(`print.go`, lines 223-232): the title write and the description write are
conditional on being non-empty, the Created and Expires writes are
unconditional (`fmt.Println(x)` appends one newline to its argument). -/
def alertLines (unitsFormat : UnitMeasures) (alert : Alert) : List String :=
  (if alert.Title ≠ "" then [colorstringColor ("[red]" ++ alert.Title) ++ "\n"] else [])
  ++ (if alert.Description ≠ "" then [colorstringColor ("[red]" ++ alert.Description)] else [])
  ++ ["\t\t\t" ++ colorstringColor ("[red]Created: " ++ epochFormat alert.Time unitsFormat) ++ "\n",
      "\t\t\t" ++ colorstringColor ("[red]Expires: " ++ epochFormat alert.Expires unitsFormat) ++ "\n\n"]

/-- The whole alert loop of `PrintCurrent` (`print.go`, lines 222-233). -/
def printAlerts (unitsFormat : UnitMeasures) (alerts : List Alert) : List String :=
  (alerts.map (alertLines unitsFormat)).flatten

/-- The header write of `PrintCurrent` (`print.go`, lines 211-212):
summary, "city in region" location, and the long-pattern date. -/
def headerLine (forecast : Forecast) (geolocation : Geocode)
    (unitsFormat : UnitMeasures) : String :=
  let location := colorstringColor ("[green]" ++ geolocation.City ++ " in " ++ geolocation.Region)
  "\nCurrent weather is "
    ++ colorstringColor ("[cyan]" ++ forecast.Currently.Summary)
    ++ " in " ++ location ++ " for "
    ++ colorstringColor ("[cyan]" ++ epochFormat forecast.Currently.Time unitsFormat) ++ "\n"

/-- The body of `PrintCurrent` after the icon block (`print.go`, lines
211-235), given the writes `pre` already emitted for the icon: the header
write, the temperature write, the alert writes unless ignored, then the
`printCommon` writes; the returned Go `error` is `printCommon`'s, which is
always `nil`. -/
def printCurrentBody (fmtv : ℚ → String) (forecast : Forecast) (geolocation : Geocode)
    (ignoreAlerts : Bool) (unitsFormat : UnitMeasures) (pre : List String) :
    Option (List String × Option String) :=
  let alerts := if ignoreAlerts then [] else printAlerts unitsFormat forecast.Alerts
  match printCommon fmtv forecast.Currently unitsFormat with
  | none => none
  | some commonLines =>
      some (pre ++ headerLine forecast geolocation unitsFormat
        :: tempLine fmtv forecast.Currently unitsFormat :: (alerts ++ commonLines),
        none)

/-- `PrintCurrent` (`print.go`, lines 198-236).  When the icon is not
hidden and `getIcon` returns a non-nil error, the function returns early
with that error; otherwise the icon write precedes the body. -/
def printCurrent (fmtv : ℚ → String) (forecast : Forecast) (geolocation : Geocode)
    (ignoreAlerts : Bool) (hideIcon : Bool) : Option (List String × Option String) :=
  let unitsFormat := UnitFormats forecast.Flags.Units
  if hideIcon then
    printCurrentBody fmtv forecast geolocation ignoreAlerts unitsFormat []
  else
    let r := getIcon forecast.Currently.Icon
    match r.2 with
    | some e => some ([], some e)
    | none =>
        printCurrentBody fmtv forecast geolocation ignoreAlerts unitsFormat [r.1 ++ "\n"]

/-- The writes of one iteration of the daily loop of `PrintDaily`
(`print.go`, lines 249-258): date header, the two temperature writes, then
the `printCommon` writes (whose `nil` error the Go code discards; a panic
still propagates). -/
def dayBlock (fmtv : ℚ → String) (unitsFormat : UnitMeasures) (daily : Weather) :
    Option (List String) :=
  let tempMax := colorstringColor ("[blue]" ++ fmtv daily.TemperatureMax ++ unitsFormat.Degrees)
  let tempMin := colorstringColor ("[blue]" ++ fmtv daily.TemperatureMin ++ unitsFormat.Degrees)
  let feelsLikeMax := colorstringColor
    ("[cyan]" ++ fmtv daily.ApparentTemperatureMax ++ unitsFormat.Degrees)
  let feelsLikeMin := colorstringColor
    ("[cyan]" ++ fmtv daily.ApparentTemperatureMin ++ unitsFormat.Degrees)
  match printCommon fmtv daily unitsFormat with
  | none => none
  | some commonLines =>
      some ((colorstringColor ("[magenta]" ++ epochFormatDate daily.Time) ++ "\n")
        :: ("The temperature high is " ++ tempMax ++ ", feels like " ++ feelsLikeMax
            ++ " around " ++ epochFormatTime daily.TemperatureMaxTime unitsFormat ++ ",\n")
        :: ("and low is " ++ tempMin ++ ", feels like " ++ feelsLikeMin
            ++ " around " ++ epochFormatTime daily.TemperatureMinTime unitsFormat ++ "\n\n")
        :: commonLines)

/-- The daily loop of `PrintDaily` (`print.go`, lines 243-259): ranging
over the remaining days with a running `index`, breaking when
`index == days`. -/
def dailyLoop (fmtv : ℚ → String) (unitsFormat : UnitMeasures) (days : ℤ) :
    List Weather → ℤ → Option (List String)
  | [], _ => some []
  | daily :: rest, index =>
      if index = days then some []
      else
        match dayBlock fmtv unitsFormat daily, dailyLoop fmtv unitsFormat days rest (index + 1) with
        | some block, some blocks => some (block ++ blocks)
        | _, _ => none

/-- `PrintDaily` (`print.go`, lines 238-262).  The slice expression
`forecast.Daily.Data[1:]` panics when the daily sequence is empty
(modelled by `none`); otherwise the loop runs over the tail. -/
def printDaily (fmtv : ℚ → String) (forecast : Forecast) (days : ℤ) : Option (List String) :=
  match forecast.Daily.Data with
  | [] => none
  | _ :: rest => dailyLoop fmtv (UnitFormats forecast.Flags.Units) days rest 0

/-- The sequence of day blocks, concatenated in order, for a given list of
daily samples; used to state which blocks `printDaily` emits. -/
def joinBlocks (fmtv : ℚ → String) (unitsFormat : UnitMeasures) :
    List Weather → Option (List String)
  | [] => some []
  | daily :: rest =>
      match dayBlock fmtv unitsFormat daily, joinBlocks fmtv unitsFormat rest with
      | some block, some blocks => some (block ++ blocks)
      | _, _ => none

lemma truncQ_of_nonneg {q : ℚ} (h : 0 ≤ q) : truncQ q = ⌊q⌋ :=
  if_pos h

lemma truncQ_of_neg {q : ℚ} (h : ¬ 0 ≤ q) : truncQ q = ⌈q⌉ :=
  if_neg h

lemma gomod_sixteen_bounds {q : ℚ} (h : 0 ≤ q) : 0 ≤ gomod q 16 ∧ gomod q 16 < 16 := by
  have h16 : (0 : ℚ) ≤ q / 16 := by positivity
  unfold gomod
  rw [truncQ_of_nonneg h16]
  have hle : (⌊q / 16⌋ : ℚ) ≤ q / 16 := Int.floor_le _
  have hlt : q / 16 < ⌊q / 16⌋ + 1 := Int.lt_floor_add_one _
  have h1 : (⌊q / 16⌋ : ℚ) * 16 ≤ q := by
    have := mul_le_mul_of_nonneg_right hle (by norm_num : (0 : ℚ) ≤ 16)
    calc (⌊q / 16⌋ : ℚ) * 16 ≤ q / 16 * 16 := this
    _ = q := by field_simp
  have h2 : q < (⌊q / 16⌋ : ℚ) * 16 + 16 := by
    have := mul_lt_mul_of_pos_right hlt (by norm_num : (0 : ℚ) < 16)
    have heq : q / 16 * 16 = q := by field_simp
    nlinarith
  constructor
  · linarith
  · linarith

lemma bearingIndex_bounds {d : ℚ} (h : 0 ≤ d) :
    0 ≤ bearingIndex d ∧ bearingIndex d < 16 := by
  have hq : (0 : ℚ) ≤ (d + 11.25) / 22.5 := by
    have h1 : (0 : ℚ) ≤ d + 11.25 := by
      have : (0 : ℚ) ≤ 11.25 := by norm_num
      linarith
    positivity
  obtain ⟨hm0, hm16⟩ := gomod_sixteen_bounds hq
  unfold bearingIndex
  rw [truncQ_of_nonneg hm0]
  refine ⟨Int.floor_nonneg.mpr hm0, ?_⟩
  exact Int.floor_lt.mpr (by exact_mod_cast hm16)

lemma getBearingDetails_total {d : ℚ} (h : 0 ≤ d) :
    ∃ s, getBearingDetails d = some s ∧ s ∈ Directions := by
  obtain ⟨h0, h16⟩ := bearingIndex_bounds h
  have hlt : (bearingIndex d).toNat < Directions.length := by
    have : Directions.length = 16 := rfl
    omega
  refine ⟨Directions.get ⟨(bearingIndex d).toNat, hlt⟩, ?_, List.get_mem _ _ _⟩
  unfold getBearingDetails
  rw [if_pos h0]
  exact List.getElem?_eq_getElem hlt

lemma getBearingDetails_eval (d q : ℚ) (z : ℤ) (s : String)
    (hq : (d + 11.25) / 22.5 = q)
    (h0 : 0 ≤ q) (h16 : q < 16)
    (hz : (z : ℚ) ≤ q) (hz1 : q < z + 1) (hz0 : 0 ≤ z)
    (hs : Directions[z.toNat]? = some s) :
    getBearingDetails d = some s := by
  have hq16 : (0 : ℚ) ≤ q / 16 := by positivity
  have hfl : ⌊q / 16⌋ = 0 := by
    rw [Int.floor_eq_iff]
    refine ⟨by simpa using hq16, ?_⟩
    have : q / 16 < 1 := (div_lt_one (by norm_num)).mpr h16
    simpa using this
  have hbi : bearingIndex d = z := by
    unfold bearingIndex gomod
    rw [hq, truncQ_of_nonneg hq16, hfl]
    have hsub : q - ((0 : ℤ) : ℚ) * 16 = q := by push_cast; ring
    rw [hsub, truncQ_of_nonneg h0, Int.floor_eq_iff]
    exact ⟨hz, by exact_mod_cast hz1⟩
  unfold getBearingDetails
  rw [hbi, if_pos hz0]
  exact hs

lemma bearingIndex_neg40 : bearingIndex (-40) = -1 := by
  have hq : ((-40 : ℚ) + 11.25) / 22.5 = -23/18 := by norm_num
  unfold bearingIndex gomod
  rw [hq]
  have h1 : truncQ ((-23/18 : ℚ) / 16) = 0 := by
    rw [truncQ_of_neg (by norm_num), Int.ceil_eq_iff]
    constructor
    · push_cast; norm_num
    · push_cast; norm_num
  rw [h1]
  have hsub : (-23/18 : ℚ) - ((0 : ℤ) : ℚ) * 16 = -23/18 := by push_cast; ring
  rw [hsub, truncQ_of_neg (by norm_num), Int.ceil_eq_iff]
  constructor
  · push_cast; norm_num
  · push_cast; norm_num

/-- Claim C3 counterexample: the bearing resolver is not total on negative
inputs: at `degrees = -40` the computed index is `-1` and the Go code
panics indexing `Directions[-1]` (modelled by `none`), so it does not
"return some direction label and never fault" for every degrees value. -/
theorem getBearingDetails_neg40_faults : getBearingDetails (-40) = none := by
  unfold getBearingDetails
  rw [bearingIndex_neg40]
  norm_num

/-- Claim C3 (amended): for every nonnegative degrees value, including
values greater than 360, `getBearingDetails` returns some direction label
from the fixed table by silent degradation and does not fault; sufficiently
negative inputs, however, make the index negative and fault. -/
theorem getBearingDetails_total_nonneg (d : ℚ) (h : 0 ≤ d) :
    ∃ s, getBearingDetails d = some s ∧ s ∈ Directions :=
  getBearingDetails_total h

/-- Claim C3 witness: the amended theorem applied at the concrete
out-of-conceptual-range input `720`. -/
theorem getBearingDetails_total_nonneg_witness :
    (0 : ℚ) ≤ 720 ∧ ∃ s, getBearingDetails 720 = some s ∧ s ∈ Directions :=
  ⟨by norm_num, getBearingDetails_total_nonneg 720 (by norm_num)⟩

/-- Claim C6: for every degrees `d` in `[0, 360)` the bearing resolver
returns one of the 16 fixed direction labels (the modulo keeps the index
below 16), and at the named inputs it returns `N`, `E`, `S`, `W`, `N`
(for 11.24) and `NNE` (for 11.26). -/
theorem getBearingDetails_range_and_values :
    (∀ d : ℚ, 0 ≤ d → d < 360 → ∃ s, getBearingDetails d = some s ∧ s ∈ Directions)
    ∧ getBearingDetails 0 = some "N"
    ∧ getBearingDetails 90 = some "E"
    ∧ getBearingDetails 180 = some "S"
    ∧ getBearingDetails 270 = some "W"
    ∧ getBearingDetails 11.24 = some "N"
    ∧ getBearingDetails 11.26 = some "NNE" := by
  refine ⟨fun d h0 _ => getBearingDetails_total h0, ?_, ?_, ?_, ?_, ?_, ?_⟩
  · exact getBearingDetails_eval 0 (1/2) 0 "N" (by norm_num) (by norm_num) (by norm_num)
      (by norm_num) (by norm_num) (by norm_num) rfl
  · exact getBearingDetails_eval 90 (9/2) 4 "E" (by norm_num) (by norm_num) (by norm_num)
      (by norm_num) (by norm_num) (by norm_num) rfl
  · exact getBearingDetails_eval 180 (17/2) 8 "S" (by norm_num) (by norm_num) (by norm_num)
      (by norm_num) (by norm_num) (by norm_num) rfl
  · exact getBearingDetails_eval 270 (25/2) 12 "W" (by norm_num) (by norm_num) (by norm_num)
      (by norm_num) (by norm_num) (by norm_num) rfl
  · exact getBearingDetails_eval 11.24 (2249/2250) 0 "N" (by norm_num) (by norm_num)
      (by norm_num) (by norm_num) (by norm_num) (by norm_num) rfl
  · exact getBearingDetails_eval 11.26 (2251/2250) 1 "NNE" (by norm_num) (by norm_num)
      (by norm_num) (by norm_num) (by norm_num) (by norm_num) rfl

/-- Claim C6 witness: the universally quantified part of the range theorem
applied at the concrete in-range input `45`. -/
theorem getBearingDetails_range_witness :
    ((0 : ℚ) ≤ 45 ∧ (45 : ℚ) < 360)
    ∧ ∃ s, getBearingDetails 45 = some s ∧ s ∈ Directions :=
  ⟨⟨by norm_num, by norm_num⟩,
    getBearingDetails_range_and_values.1 45 (by norm_num) (by norm_num)⟩

/-- Claim C8: the `"us"` profile has degree symbol `°F`; any key outside
the five predefined region codes yields the zero-value profile (all six
fields empty); and the `"uk"` and `"uk2"` profiles agree on every field
except the distance unit (`kilometers` vs `miles`). -/
theorem unitFormats_lookup_spec :
    (UnitFormats "us").Degrees = "°F"
    ∧ (∀ k : String, k ≠ "us" → k ≠ "si" → k ≠ "ca" → k ≠ "uk" → k ≠ "uk2" →
        UnitFormats k = ⟨"", "", "", "", "", ""⟩)
    ∧ (UnitFormats "uk").Degrees = (UnitFormats "uk2").Degrees
    ∧ (UnitFormats "uk").Speed = (UnitFormats "uk2").Speed
    ∧ (UnitFormats "uk").Precipitation = (UnitFormats "uk2").Precipitation
    ∧ (UnitFormats "uk").LongDate = (UnitFormats "uk2").LongDate
    ∧ (UnitFormats "uk").Hour = (UnitFormats "uk2").Hour
    ∧ (UnitFormats "uk").Length = "kilometers"
    ∧ (UnitFormats "uk2").Length = "miles" := by
  refine ⟨by decide, ?_, by decide, by decide, by decide, by decide, by decide,
    by decide, by decide⟩
  intro k h1 h2 h3 h4 h5
  simp only [UnitFormats, if_neg h1, if_neg h2, if_neg h3, if_neg h4, if_neg h5]

/-- Claim C8 witness: the unknown-key conjunct applied at the concrete key
`"unknown-code"`. -/
theorem unitFormats_lookup_witness :
    ("unknown-code" ≠ "us" ∧ "unknown-code" ≠ "si" ∧ "unknown-code" ≠ "ca"
      ∧ "unknown-code" ≠ "uk" ∧ "unknown-code" ≠ "uk2")
    ∧ UnitFormats "unknown-code" = ⟨"", "", "", "", "", ""⟩ :=
  ⟨⟨by decide, by decide, by decide, by decide, by decide⟩,
    unitFormats_lookup_spec.2.1 "unknown-code" (by decide) (by decide) (by decide)
      (by decide) (by decide)⟩

lemma printCurrentBody_no_error (fmtv : ℚ → String) (forecast : Forecast)
    (geolocation : Geocode) (ignoreAlerts : Bool) (unitsFormat : UnitMeasures)
    (pre out : List String) (e : String) :
    printCurrentBody fmtv forecast geolocation ignoreAlerts unitsFormat pre
      ≠ some (out, some e) := by
  unfold printCurrentBody
  cases h : printCommon fmtv forecast.Currently unitsFormat with
  | none => simp
  | some commonLines => simp

/-- Claim C7: the condition-icon resolver always returns a nil error; any
key whose sterilized form is outside the 17 recognized condition keys (for
example `"nonsense"`) yields the empty glyph wrapped in the default blue
color tag; and `printCurrent` never returns a non-nil error. -/
theorem getIcon_never_fails :
    (∀ s : String, (getIcon s).2 = none)
    ∧ (∀ s : String,
        steralize s ∉ ["clear", "clearday", "clearnight", "clouds", "cloudy",
          "cloudsnight", "fog", "haze", "hazenight", "partlycloudyday",
          "partlycloudynight", "rain", "sleet", "snow", "thunderstorm",
          "tornado", "wind"] →
        getIcon s = (colorstringColor "[blue]", none))
    ∧ getIcon "nonsense" = (colorstringColor "[blue]", none)
    ∧ (∀ (fmtv : ℚ → String) (forecast : Forecast) (geolocation : Geocode)
        (ignoreAlerts hideIcon : Bool) (out : List String) (e : String),
        printCurrent fmtv forecast geolocation ignoreAlerts hideIcon ≠ some (out, some e)) := by
  refine ⟨fun _ => rfl, ?_, by decide, ?_⟩
  · intro s h
    simp only [List.mem_cons, List.not_mem_nil, or_false] at h
    push_neg at h
    obtain ⟨h1, h2, h3, h4, h5, h6, h7, h8, h9, h10, h11, h12, h13, h14, h15, h16, h17⟩ := h
    simp only [getIcon, iconTable, if_neg h1, if_neg h2, if_neg h3, if_neg h4, if_neg h5,
      if_neg h6, if_neg h7, if_neg h8, if_neg h9, if_neg h10, if_neg h11, if_neg h12,
      if_neg h13, if_neg h14, if_neg h15, if_neg h16, if_neg h17]
    rfl
  · intro fmtv forecast geolocation ignoreAlerts hideIcon out e
    cases hideIcon with
    | true =>
        exact printCurrentBody_no_error fmtv forecast geolocation ignoreAlerts
          (UnitFormats forecast.Flags.Units) [] out e
    | false =>
        exact printCurrentBody_no_error fmtv forecast geolocation ignoreAlerts
          (UnitFormats forecast.Flags.Units)
          [(getIcon forecast.Currently.Icon).1 ++ "\n"] out e

/-- Claim C7 witness: the unrecognized-key conjunct applied at the concrete
key `"sunshower"`. -/
theorem getIcon_never_fails_witness :
    (steralize "sunshower" ∉ ["clear", "clearday", "clearnight", "clouds", "cloudy",
      "cloudsnight", "fog", "haze", "hazenight", "partlycloudyday",
      "partlycloudynight", "rain", "sleet", "snow", "thunderstorm",
      "tornado", "wind"])
    ∧ getIcon "sunshower" = (colorstringColor "[blue]", none) :=
  ⟨by decide, getIcon_never_fails.2.1 "sunshower" (by decide)⟩

lemma filter_dash_underscore_idem (l : List Char) :
    ((((l.filter (fun c => c != '-')).filter (fun c => c != '_')).filter
        (fun c => c != '-')).filter (fun c => c != '_'))
      = (l.filter (fun c => c != '-')).filter (fun c => c != '_') := by
  have h1 : (((l.filter (fun c => c != '-')).filter (fun c => c != '_')).filter
      (fun c => c != '-'))
      = (l.filter (fun c => c != '-')).filter (fun c => c != '_') := by
    refine List.filter_eq_self.mpr ?_
    intro a ha
    simp only [List.mem_filter] at ha
    exact ha.1.2
  rw [h1]
  refine List.filter_eq_self.mpr ?_
  intro a ha
  simp only [List.mem_filter] at ha
  exact ha.2

lemma steralize_idem (s : String) : steralize (steralize s) = steralize s := by
  unfold steralize
  exact congrArg String.mk (filter_dash_underscore_idem s.data)

/-- Claim C9: the resolver is invariant under hyphen/underscore spelling:
`clear-day`, `clear_day` and `clearday` resolve identically; the
hyphen/underscore-stripping normalization is idempotent; and the resolver
factors through the normalized key. -/
theorem getIcon_normalization :
    getIcon "clear-day" = getIcon "clear_day"
    ∧ getIcon "clear_day" = getIcon "clearday"
    ∧ (∀ s : String, steralize (steralize s) = steralize s)
    ∧ (∀ s : String, getIcon s = getIcon (steralize s)) := by
  refine ⟨by decide, by decide, steralize_idem, ?_⟩
  intro s
  unfold getIcon
  rw [steralize_idem]

lemma dailyLoop_take (fmtv : ℚ → String) (u : UnitMeasures) (days : ℤ) (ws : List Weather) :
    ∀ idx : ℤ, idx ≤ days → (days - idx).toNat ≤ ws.length →
    dailyLoop fmtv u days ws idx = joinBlocks fmtv u (ws.take (days - idx).toNat) := by
  induction ws with
  | nil =>
      intro idx _ _
      simp [dailyLoop, joinBlocks]
  | cons w ws ih =>
      intro idx h1 h2
      by_cases he : idx = days
      · have h0 : (days - idx).toNat = 0 := by omega
        simp [dailyLoop, he, h0, joinBlocks]
      · have hn : (days - idx).toNat = (days - (idx + 1)).toNat + 1 := by omega
        have h2l : (days - (idx + 1)).toNat ≤ ws.length := by
          simp only [List.length_cons] at h2
          omega
        have ihx := ih (idx + 1) (by omega) h2l
        rw [hn, List.take_succ_cons]
        simp only [dailyLoop, if_neg he, ihx]
        rfl

lemma dailyLoop_negative (fmtv : ℚ → String) (u : UnitMeasures) (days : ℤ)
    (hdays : days < 0) (ws : List Weather) :
    ∀ idx : ℤ, 0 ≤ idx → dailyLoop fmtv u days ws idx = joinBlocks fmtv u ws := by
  induction ws with
  | nil =>
      intro idx _
      simp [dailyLoop, joinBlocks]
  | cons w ws ih =>
      intro idx hidx
      have he : idx ≠ days := by omega
      simp only [dailyLoop, if_neg he, ih (idx + 1) (by omega)]
      rfl

/-- Claim C4: when the daily-sample sequence is empty, `printDaily` faults
(the Go slice expression `forecast.Daily.Data[1:]` is out of bounds,
modelled by `none`); consequently a non-faulting run requires at least one
daily sample. -/
theorem printDaily_empty_faults :
    (∀ (fmtv : ℚ → String) (forecast : Forecast) (days : ℤ),
      forecast.Daily.Data = [] → printDaily fmtv forecast days = none)
    ∧ (∀ (fmtv : ℚ → String) (forecast : Forecast) (days : ℤ) (out : List String),
      printDaily fmtv forecast days = some out → forecast.Daily.Data ≠ []) := by
  constructor
  · intro fmtv forecast days h
    unfold printDaily
    rw [h]
  · intro fmtv forecast days out hsome hempty
    unfold printDaily at hsome
    rw [hempty] at hsome
    cases hsome

/-- All-zero weather sample used as a concrete fixture. -/
def w0 : Weather :=
  ⟨0, "", "", 0, 0, 0, 0, 0, "", 0, 0, 0, 0, 0, 0, 0, 0, 0, 0, 0, 0, 0⟩

/-- Value formatter fixture rendering every number as the empty string. -/
def fmtv0 : ℚ → String := fun _ => ""

/-- Forecast fixture with an empty daily sequence. -/
def emptyDailyForecast : Forecast := ⟨w0, ⟨[]⟩, ⟨"us"⟩, []⟩

/-- Claim C4 witness: the empty-sequence conjunct applied to the concrete
forecast with no daily samples. -/
theorem printDaily_empty_faults_witness :
    emptyDailyForecast.Daily.Data = [] ∧ printDaily fmtv0 emptyDailyForecast 3 = none :=
  ⟨rfl, printDaily_empty_faults.1 fmtv0 emptyDailyForecast 3 rfl⟩

/-- Forecast fixture with three identical all-zero daily samples. -/
def threeDayForecast : Forecast := ⟨w0, ⟨[w0, w0, w0]⟩, ⟨"us"⟩, []⟩

/-- Claim C2 counterexample: with a negative day count the daily printer
does not print nothing: on a forecast with three daily samples and
`days = -1` it prints the blocks of both remaining days (the loop's
`index == days` stop condition never fires), and it does not fault. -/
theorem printDaily_negative_counterexample :
    printDaily fmtv0 threeDayForecast (-1) ≠ some []
    ∧ printDaily fmtv0 threeDayForecast (-1) ≠ none := by
  have h : printDaily fmtv0 threeDayForecast (-1)
      = joinBlocks fmtv0 (UnitFormats "us") [w0, w0] := by
    unfold printDaily threeDayForecast
    exact dailyLoop_negative fmtv0 (UnitFormats "us") (-1) (by norm_num) [w0, w0] 0 le_rfl
  constructor
  · intro hc
    rw [h] at hc
    norm_num [joinBlocks, dayBlock, printCommon, w0, fmtv0] at hc
    exact List.noConfusion hc
  · intro hc
    rw [h] at hc
    norm_num [joinBlocks, dayBlock, printCommon, w0, fmtv0] at hc
    exact Option.noConfusion hc

/-- Claim C2 (amended): on a forecast with at least one daily sample,
`printDaily` with `days = 0` prints nothing; with a negative `days` it does
not print nothing but prints the blocks of all days after index 0, because
the loop's `index == days` comparison never succeeds for a negative count. -/
theorem printDaily_zero_and_negative :
    (∀ (fmtv : ℚ → String) (forecast : Forecast),
      forecast.Daily.Data ≠ [] → printDaily fmtv forecast 0 = some [])
    ∧ (∀ (fmtv : ℚ → String) (forecast : Forecast) (x : Weather) (rest : List Weather)
        (days : ℤ), forecast.Daily.Data = x :: rest → days < 0 →
        printDaily fmtv forecast days
          = joinBlocks fmtv (UnitFormats forecast.Flags.Units) rest) := by
  constructor
  · intro fmtv forecast h
    unfold printDaily
    cases hd : forecast.Daily.Data with
    | nil => exact absurd hd h
    | cons x rest =>
        cases rest with
        | nil => rfl
        | cons y ys => simp [dailyLoop]
  · intro fmtv forecast x rest days hdata hneg
    unfold printDaily
    rw [hdata]
    exact dailyLoop_negative fmtv (UnitFormats forecast.Flags.Units) days hneg rest 0 le_rfl

/-- Claim C2 witness: the negative-count conjunct applied to the concrete
three-sample forecast with `days = -1`. -/
theorem printDaily_zero_and_negative_witness :
    (threeDayForecast.Daily.Data = w0 :: [w0, w0] ∧ (-1 : ℤ) < 0)
    ∧ printDaily fmtv0 threeDayForecast (-1)
        = joinBlocks fmtv0 (UnitFormats threeDayForecast.Flags.Units) [w0, w0] :=
  ⟨⟨rfl, by decide⟩,
    printDaily_zero_and_negative.2 fmtv0 threeDayForecast w0 [w0, w0] (-1) rfl (by decide)⟩

/-- Claim C5: on a forecast whose daily sequence is `x :: rest` with
`0 ≤ days` and at least `days` further entries, `printDaily` skips index 0
and emits exactly the day blocks of `rest.take days`, that is of indices
`1` through `days` of the original sequence, in order. -/
theorem printDaily_skips_today_takes_days (fmtv : ℚ → String) (forecast : Forecast)
    (x : Weather) (rest : List Weather) (days : ℤ)
    (hdata : forecast.Daily.Data = x :: rest) (h0 : 0 ≤ days)
    (hlen : days.toNat ≤ rest.length) :
    printDaily fmtv forecast days
      = joinBlocks fmtv (UnitFormats forecast.Flags.Units) (rest.take days.toNat) := by
  unfold printDaily
  rw [hdata]
  have h := dailyLoop_take fmtv (UnitFormats forecast.Flags.Units) days rest 0 h0
    (by simpa using hlen)
  simpa using h

/-- Distinct daily weather fixtures (differing in their timestamps). -/
def w1 : Weather :=
  ⟨1, "", "", 0, 0, 0, 0, 0, "", 0, 0, 0, 0, 0, 0, 0, 0, 0, 0, 0, 0, 0⟩

def w2 : Weather :=
  ⟨2, "", "", 0, 0, 0, 0, 0, "", 0, 0, 0, 0, 0, 0, 0, 0, 0, 0, 0, 0, 0⟩

def w3 : Weather :=
  ⟨3, "", "", 0, 0, 0, 0, 0, "", 0, 0, 0, 0, 0, 0, 0, 0, 0, 0, 0, 0, 0⟩

def w4 : Weather :=
  ⟨4, "", "", 0, 0, 0, 0, 0, "", 0, 0, 0, 0, 0, 0, 0, 0, 0, 0, 0, 0, 0⟩

/-- Forecast fixture with five distinct daily samples (index 0 = today). -/
def fiveDayForecast : Forecast := ⟨w0, ⟨[w0, w1, w2, w3, w4]⟩, ⟨"us"⟩, []⟩

/-- Claim C5 witness: the theorem applied to the concrete five-sample
forecast with `days = 2`: exactly the blocks of indices 1 and 2 (samples
`w1` and `w2`) are emitted. -/
theorem printDaily_skips_today_takes_days_witness :
    (fiveDayForecast.Daily.Data = w0 :: [w1, w2, w3, w4] ∧ (0 : ℤ) ≤ 2
      ∧ (2 : ℤ).toNat ≤ [w1, w2, w3, w4].length)
    ∧ printDaily fmtv0 fiveDayForecast 2
        = joinBlocks fmtv0 (UnitFormats fiveDayForecast.Flags.Units)
            ([w1, w2, w3, w4].take (2 : ℤ).toNat) :=
  ⟨⟨rfl, by decide, by decide⟩,
    printDaily_skips_today_takes_days fmtv0 fiveDayForecast w0 [w1, w2, w3, w4] 2
      rfl (by decide) (by decide)⟩

lemma printCurrentBody_alerts_present (fmtv : ℚ → String) (forecast : Forecast)
    (geolocation : Geocode) (unitsFormat : UnitMeasures) (pre out : List String)
    (err : Option String)
    (h : printCurrentBody fmtv forecast geolocation false unitsFormat pre = some (out, err)) :
    ∃ a b, out = a ++ printAlerts unitsFormat forecast.Alerts ++ b := by
  unfold printCurrentBody at h
  cases hc : printCommon fmtv forecast.Currently unitsFormat with
  | none =>
      rw [hc] at h
      exact Option.noConfusion h
  | some commonLines =>
      rw [hc] at h
      simp only [Option.some.injEq, Prod.mk.injEq] at h
      refine ⟨pre ++ [headerLine forecast geolocation unitsFormat,
        tempLine fmtv forecast.Currently unitsFormat], commonLines, ?_⟩
      rw [← h.1]
      simp

lemma printCurrentBody_temp_present (fmtv : ℚ → String) (forecast : Forecast)
    (geolocation : Geocode) (ignoreAlerts : Bool) (unitsFormat : UnitMeasures)
    (pre out : List String) (err : Option String)
    (h : printCurrentBody fmtv forecast geolocation ignoreAlerts unitsFormat pre
      = some (out, err)) :
    tempLine fmtv forecast.Currently unitsFormat ∈ out := by
  unfold printCurrentBody at h
  cases hc : printCommon fmtv forecast.Currently unitsFormat with
  | none =>
      rw [hc] at h
      exact Option.noConfusion h
  | some commonLines =>
      rw [hc] at h
      simp only [Option.some.injEq, Prod.mk.injEq] at h
      rw [← h.1]
      simp

/-- Claim C1 counterexample: an alert with empty title and empty
description does not produce zero alert output lines: the alert loop
prints the Created and Expires lines unconditionally, so such an alert
still yields output. -/
theorem alertLines_empty_alert_counterexample :
    alertLines (UnitFormats "us") ⟨"", "", 0, 0⟩ ≠ [] := by
  decide

/-- Claim C1 (amended): in a `printCurrent` run with alerts not ignored,
an alert whose title and description are both empty produces exactly the
two Created/Expires lines (the title and description lines are suppressed,
but the timestamp lines are printed unconditionally); an alert with a
non-empty title and empty description produces exactly the title line plus
the Created/Expires lines; and the alert writes appear contiguously in the
output of `printCurrent` when alerts are not ignored. -/
theorem alertLines_spec_amended :
    (∀ (u : UnitMeasures) (t e : ℤ),
      alertLines u ⟨"", "", t, e⟩ =
        ["\t\t\t" ++ colorstringColor ("[red]Created: " ++ epochFormat t u) ++ "\n",
         "\t\t\t" ++ colorstringColor ("[red]Expires: " ++ epochFormat e u) ++ "\n\n"])
    ∧ (∀ (u : UnitMeasures) (title : String) (t e : ℤ), title ≠ "" →
      alertLines u ⟨title, "", t, e⟩ =
        [colorstringColor ("[red]" ++ title) ++ "\n",
         "\t\t\t" ++ colorstringColor ("[red]Created: " ++ epochFormat t u) ++ "\n",
         "\t\t\t" ++ colorstringColor ("[red]Expires: " ++ epochFormat e u) ++ "\n\n"])
    ∧ (∀ (fmtv : ℚ → String) (forecast : Forecast) (geolocation : Geocode)
        (hideIcon : Bool) (out : List String) (err : Option String),
        printCurrent fmtv forecast geolocation false hideIcon = some (out, err) →
        ∃ a b, out = a ++ printAlerts (UnitFormats forecast.Flags.Units) forecast.Alerts ++ b) := by
  refine ⟨?_, ?_, ?_⟩
  · intro u t e
    simp [alertLines]
  · intro u title t e h
    simp [alertLines, h]
  · intro fmtv forecast geolocation hideIcon out err h
    cases hideIcon with
    | true =>
        exact printCurrentBody_alerts_present fmtv forecast geolocation
          (UnitFormats forecast.Flags.Units) [] out err h
    | false =>
        exact printCurrentBody_alerts_present fmtv forecast geolocation
          (UnitFormats forecast.Flags.Units)
          [(getIcon forecast.Currently.Icon).1 ++ "\n"] out err h

/-- Claim C1 witness: the title-only conjunct applied to the concrete
alert `("Storm Warning", "", 5, 9)` under the `us` profile. -/
theorem alertLines_spec_amended_witness :
    ("Storm Warning" : String) ≠ ""
    ∧ alertLines (UnitFormats "us") ⟨"Storm Warning", "", 5, 9⟩ =
        [colorstringColor ("[red]" ++ "Storm Warning") ++ "\n",
         "\t\t\t" ++ colorstringColor
            ("[red]Created: " ++ epochFormat 5 (UnitFormats "us")) ++ "\n",
         "\t\t\t" ++ colorstringColor
            ("[red]Expires: " ++ epochFormat 9 (UnitFormats "us")) ++ "\n\n"] :=
  ⟨by decide, alertLines_spec_amended.2.1 (UnitFormats "us") "Storm Warning" 5 9 (by decide)⟩

/-- Claim C10: the feels-like clause of the current printer is controlled
purely by equality of the two fully formatted strings (color annotation
plus value rendering plus unit suffix): when they coincide only the plain
temperature line is written — regardless of the underlying numeric values —
and when they differ the clause is present; moreover the temperature write
always appears in a successful `printCurrent` output. -/
theorem tempLine_feelslike_iff :
    (∀ (fmtv : ℚ → String) (currently : Weather) (u : UnitMeasures),
      (colorstringColor ("[magenta]" ++ fmtv currently.Temperature ++ u.Degrees)
          = colorstringColor ("[magenta]" ++ fmtv currently.ApparentTemperature ++ u.Degrees) →
        tempLine fmtv currently u =
          "The temperature is "
            ++ colorstringColor ("[magenta]" ++ fmtv currently.Temperature ++ u.Degrees)
            ++ "\n\n")
      ∧ (colorstringColor ("[magenta]" ++ fmtv currently.Temperature ++ u.Degrees)
          ≠ colorstringColor ("[magenta]" ++ fmtv currently.ApparentTemperature ++ u.Degrees) →
        tempLine fmtv currently u =
          "The temperature is "
            ++ colorstringColor ("[magenta]" ++ fmtv currently.Temperature ++ u.Degrees)
            ++ ", but it feels like "
            ++ colorstringColor ("[magenta]" ++ fmtv currently.ApparentTemperature ++ u.Degrees)
            ++ "\n\n"))
    ∧ (∀ (fmtv : ℚ → String) (forecast : Forecast) (geolocation : Geocode)
        (ignoreAlerts hideIcon : Bool) (out : List String) (err : Option String),
        printCurrent fmtv forecast geolocation ignoreAlerts hideIcon = some (out, err) →
        tempLine fmtv forecast.Currently (UnitFormats forecast.Flags.Units) ∈ out) := by
  constructor
  · intro fmtv currently u
    constructor
    · intro h
      simp [tempLine, h]
    · intro h
      simp [tempLine, h]
  · intro fmtv forecast geolocation ignoreAlerts hideIcon out err h
    cases hideIcon with
    | true =>
        exact printCurrentBody_temp_present fmtv forecast geolocation ignoreAlerts
          (UnitFormats forecast.Flags.Units) [] out err h
    | false =>
        exact printCurrentBody_temp_present fmtv forecast geolocation ignoreAlerts
          (UnitFormats forecast.Flags.Units)
          [(getIcon forecast.Currently.Icon).1 ++ "\n"] out err h

/-- Value formatter fixture rendering every number as the string `72`,
exhibiting two numerically different temperatures that format identically. -/
def fmt72 : ℚ → String := fun _ => "72"

/-- Weather fixture whose temperature (72) and apparent temperature (70)
are numerically different. -/
def w7270 : Weather :=
  ⟨0, "", "", 72, 70, 0, 0, 0, "", 0, 0, 0, 0, 0, 0, 0, 0, 0, 0, 0, 0, 0⟩

/-- Claim C10 witness: under a formatter that renders both 72 and 70 as
`"72"`, the two formatted strings coincide and only the plain temperature
line is produced, although the underlying numeric values differ. -/
theorem tempLine_feelslike_iff_witness :
    colorstringColor ("[magenta]" ++ fmt72 w7270.Temperature ++ (UnitFormats "us").Degrees)
      = colorstringColor ("[magenta]" ++ fmt72 w7270.ApparentTemperature ++ (UnitFormats "us").Degrees)
    ∧ tempLine fmt72 w7270 (UnitFormats "us") =
        "The temperature is "
          ++ colorstringColor ("[magenta]" ++ fmt72 w7270.Temperature ++ (UnitFormats "us").Degrees)
          ++ "\n\n" :=
  ⟨by decide, (tempLine_feelslike_iff.1 fmt72 w7270 (UnitFormats "us")).1 (by decide)⟩

end WeatherPrint
